import Mathlib

/-!
Verification of the maintenance database cleanup of image-builder
(`src/cmd/image-builder-maintenance/db.go`).

The Go file is shallowly embedded: the database content is a pair of lists
(clones, composes), each SQL statement becomes a pure function on that
state, and the external effects (connection errors, statement errors,
statement results of the statistics query) are injected through an
explicit environment.  `DBCleanup` becomes a pure function producing the
final database together with a trace of the database calls it issued and
the structured log records it emitted, so that call-ordering, error
propagation and resource-release properties can be stated about the
trace.

Timestamps are modelled as integers on an abstract timeline measured in
months, so that Go's `time.Now().AddDate(0, m, 0)` (a shift by `m`
calendar months) becomes addition of `m`.
-/

namespace ImageBuilderMaintenance

/-- A row of the `clones` table: `compose_id` is the foreign key into
`composes.job_id`. -/
structure Clone where
  compose_id : Nat
deriving DecidableEq, Repr

/-- A row of the `composes` table: `job_id` identifies the build job,
`created_at` is its creation timestamp. -/
structure Compose where
  job_id : Nat
  created_at : Int
deriving DecidableEq, Repr

/-- The database contents relevant to the cleanup job. -/
structure DB where
  clones : List Clone
  composes : List Compose
deriving DecidableEq, Repr

/-- Go `t.AddDate(0, months, 0)`: shift a timestamp by `months` calendar
months, on the month-granularity integer timeline of the model. -/
def addDateMonths (t : Int) (months : Int) : Int := t + months

/-- The subquery `SELECT job_id FROM composes WHERE created_at < $1`
shared by `sqlDeleteClones` and `sqlExpiredClonesCount`. -/
def expiredJobIds (cutoff : Int) (db : DB) : List Nat :=
  (db.composes.filter (fun c => decide (c.created_at < cutoff))).map Compose.job_id

/-- The `WHERE` clause of `sqlDeleteClones` / `sqlExpiredClonesCount`:
the clone's `compose_id` is among the expired job ids. -/
def cloneExpired (cutoff : Int) (db : DB) (cl : Clone) : Bool :=
  (expiredJobIds cutoff db).contains cl.compose_id

/-- Executing `sqlDeleteClones`: rows affected and the new database. -/
def runDeleteClones (cutoff : Int) (db : DB) : Nat × DB :=
  ((db.clones.filter (fun cl => cloneExpired cutoff db cl)).length,
   DB.mk (db.clones.filter (fun cl => !(cloneExpired cutoff db cl))) db.composes)

/-- Executing `sqlDeleteComposes`: rows affected and the new database. -/
def runDeleteComposes (cutoff : Int) (db : DB) : Nat × DB :=
  ((db.composes.filter (fun c => decide (c.created_at < cutoff))).length,
   DB.mk db.clones (db.composes.filter (fun c => !(decide (c.created_at < cutoff)))))

/-- Executing `sqlExpiredClonesCount`. -/
def runExpiredClonesCount (cutoff : Int) (db : DB) : Nat :=
  (db.clones.filter (fun cl => cloneExpired cutoff db cl)).length

/-- Executing `sqlExpiredComposesCount`. -/
def runExpiredComposesCount (cutoff : Int) (db : DB) : Nat :=
  (db.composes.filter (fun c => decide (c.created_at < cutoff))).length

/-- A database call issued by the maintenance job; deletion and count
calls carry the cutoff timestamp they were invoked with. -/
inductive Ev where
  | connect
  | close
  | logVacuumStats
  | countClones (cutoff : Int)
  | countComposes (cutoff : Int)
  | deleteClones (cutoff : Int)
  | deleteComposes (cutoff : Int)
  | vacuumAnalyze
deriving DecidableEq, Repr

/-- The cutoff argument an event was issued with, if it takes one. -/
def Ev.cutoff : Ev → Option Int
  | Ev.countClones c => some c
  | Ev.countComposes c => some c
  | Ev.deleteClones c => some c
  | Ev.deleteComposes c => some c
  | _ => none

/-- Whether an event mutates the database or its storage: the two
delete statements and `VACUUM ANALYZE`. -/
def Ev.isMutation : Ev → Bool
  | Ev.deleteClones _ => true
  | Ev.deleteComposes _ => true
  | Ev.vacuumAnalyze => true
  | _ => false

/-- One row returned by `sqlVacuumStats`, with the columns the Go code
scans; the four nullable timestamps are `Option Int`. -/
structure VacuumStatRow where
  relname : String
  relsize : String
  n_tup_ins : Int
  n_tup_upd : Int
  n_tup_del : Int
  n_live_tup : Int
  n_dead_tup : Int
  vacuum_count : Int
  autovacuum_count : Int
  analyze_count : Int
  autoanalyze_count : Int
  last_vacuum : Option Int
  last_autovacuum : Option Int
  last_analyze : Option Int
  last_autoanalyze : Option Int
deriving DecidableEq, Repr

/-- A structured log record emitted by the job, one constructor per
`logrus` call site in the Go file, carrying the values passed to the
logger at that site. -/
inductive LogEntry where
  /-- `logrus.Errorf("Error running vacuum stats: %v", err)` in `DBCleanup`. -/
  | errVacuumStats (e : String)
  /-- `logrus.Warningf("Error querying expired clones: %v", err)`. -/
  | warnExpiredClones (e : String)
  /-- `logrus.Warningf("Error querying expired composes: %v", err)`. -/
  | warnExpiredComposes (e : String)
  /-- `logrus.Infof("Dryrun, expired composes count: %d (affecting %d clones)", rows, rowsClones)`. -/
  | dryRunInfo (rows : Nat) (rowsClones : Nat)
  /-- `logrus.Errorf("Error deleting clones: %v, %d rows affected", rows, err)`:
  the affected-row count and the error passed at the call site. -/
  | errDeletingClones (rows : Nat) (e : String)
  /-- `logrus.Errorf("Error deleting composes: %v, %d rows affected", rows, err)`. -/
  | errDeletingComposes (rows : Nat) (e : String)
  /-- `logrus.Errorf("Error running vacuum analyze: %v", err)`. -/
  | errVacuumAnalyze (e : String)
  /-- `logrus.Infof("Deleted results for %d", rows)`. -/
  | deletedInfo (rows : Nat)
  /-- The per-table `Info` record of `LogVacuumStats`. -/
  | vacuumStatRow (r : VacuumStatRow)
deriving DecidableEq, Repr

/-- `fmt.Errorf("Error deleting clones: %v", err)`. -/
def errMsgDeleteClones (e : String) : String := "Error deleting clones: " ++ e

/-- `fmt.Errorf("Error deleting composes: %v", err)`. -/
def errMsgDeleteComposes (e : String) : String := "Error deleting composes: " ++ e

/-- `fmt.Errorf("Error running VACUUM ANALYZE: %v", err)`. -/
def errMsgVacuum (e : String) : String := "Error running VACUUM ANALYZE: " ++ e

/-- `fmt.Errorf("Error querying vacuum stats: %v", err)`. -/
def errMsgVacuumStats (e : String) : String := "Error querying vacuum stats: " ++ e

/-- External behaviour of one `LogVacuumStats` call: the outcome of the
`Query`, the rows the cursor yields, an optional scan failure at a given
row index, and the deferred `rows.Err()` value. -/
structure StatsEnv where
  queryErr : Option String
  rows : List VacuumStatRow
  scanErrAt : Option (Nat × String)
  rowsErr : Option String

/-- Failure injection for one whole `DBCleanup` invocation.  Fallible
external calls either succeed (`none`) or fail with an error; a failing
`Exec` also reports the `RowsAffected()` of its command tag (the partial
count), and a failing statement leaves the database unchanged.  The
per-iteration fields are indexed by the loop iteration number. -/
structure Env where
  connectErr : Option String
  statsBefore : StatsEnv
  clonesCountErr : Option String
  composesCountErr : Option String
  deleteClonesFail : Nat → Option (Nat × String)
  deleteComposesFail : Nat → Option (Nat × String)
  vacuumFail : Nat → Option String
  statsAfter : StatsEnv

/-- Go `maintenanceDB.Close` (db.go:59-61): issue the close call on the
connection and return its error. -/
def Close (closeErr : Option String) : List Ev × Option String :=
  ([Ev.close], closeErr)

/-- Go `maintenanceDB.DeleteClones` (db.go:63-69): execute
`sqlDeleteClones`; on failure return the tag's affected-row count with
the wrapped error, on success the affected-row count of the delete. -/
def DeleteClones (fail : Option (Nat × String)) (emailRetentionDate : Int)
    (db : DB) : Nat × DB × Option String :=
  match fail with
  | some (r, e) => (r, db, some (errMsgDeleteClones e))
  | none =>
    let p := runDeleteClones emailRetentionDate db
    (p.1, p.2, none)

/-- Go `maintenanceDB.DeleteComposes` (db.go:71-77). -/
def DeleteComposes (fail : Option (Nat × String)) (emailRetentionDate : Int)
    (db : DB) : Nat × DB × Option String :=
  match fail with
  | some (r, e) => (r, db, some (errMsgDeleteComposes e))
  | none =>
    let p := runDeleteComposes emailRetentionDate db
    (p.1, p.2, none)

/-- Go `maintenanceDB.ExpiredClonesCount` (db.go:79-86): on failure the
count is 0 and the error is returned unwrapped. -/
def ExpiredClonesCount (fail : Option String) (emailRetentionDate : Int)
    (db : DB) : Nat × Option String :=
  match fail with
  | some e => (0, some e)
  | none => (runExpiredClonesCount emailRetentionDate db, none)

/-- Go `maintenanceDB.ExpiredComposesCount` (db.go:88-95). -/
def ExpiredComposesCount (fail : Option String) (emailRetentionDate : Int)
    (db : DB) : Nat × Option String :=
  match fail with
  | some e => (0, some e)
  | none => (runExpiredComposesCount emailRetentionDate db, none)

/-- Go `maintenanceDB.VacuumAnalyze` (db.go:97-103): wraps its error. -/
def VacuumAnalyze (fail : Option String) : Option String :=
  match fail with
  | some e => some (errMsgVacuum e)
  | none => none

/-- The row loop of `LogVacuumStats` (db.go:114-143): log one record per
row until the cursor is exhausted or `Scan` fails at index `i`; returns
the log records emitted and the scan error, if any. -/
def logStatsRows (rows : List VacuumStatRow) (scanErrAt : Option (Nat × String))
    (i : Nat) : List LogEntry × Option String :=
  match rows with
  | [] => ([], none)
  | r :: rest =>
    match scanErrAt with
    | some (k, e) =>
      if i = k then ([], some e)
      else
        let p := logStatsRows rest (some (k, e)) (i + 1)
        (LogEntry.vacuumStatRow r :: p.1, p.2)
    | none =>
      let p := logStatsRows rest none (i + 1)
      (LogEntry.vacuumStatRow r :: p.1, p.2)

/-- Go `maintenanceDB.LogVacuumStats` (db.go:105-149): query the
statistics, log one record per row, and return the `deleted` counter
(initialised to 0 and never incremented) together with any error from
the query, a row scan, or `rows.Err()`. -/
def LogVacuumStats (se : StatsEnv) : Nat × List LogEntry × Option String :=
  match se.queryErr with
  | some e => (0, [], some (errMsgVacuumStats e))
  | none =>
    let deleted := 0
    let p := logStatsRows se.rows se.scanErrAt 0
    match p.2 with
    | some e => (0, p.1, some e)
    | none =>
      match se.rowsErr with
      | some e => (0, p.1, some e)
      | none => (deleted, p.1, none)

/-- How the `for` loop of `DBCleanup` ended: `break`, a `return err`
from inside the loop, or exhaustion of the model's fuel (an artifact of
the fuelled embedding, never reached with enough fuel). -/
inductive LoopExit where
  | broke
  | returned (e : String)
  | outOfFuel
deriving DecidableEq, Repr

/-- Result of running the `for` loop of `DBCleanup`: the events issued,
the log records emitted, the final database, and the exit mode.
`cloneRows` / `composeRows` additionally record, per iteration, the
affected-row counts the successful `DeleteClones` / `DeleteComposes`
calls returned (specification bookkeeping; the Go code stores both in
the one variable `rows`, overwriting it). -/
structure LoopOut where
  evs : List Ev
  logs : List LogEntry
  db : DB
  cloneRows : List Nat
  composeRows : List Nat
  exit : LoopExit
deriving DecidableEq, Repr

/-- The `for` loop of `DBCleanup` (db.go:167-205), iteration `i` onward.
Dry-run: count expired clones and composes (warnings on failure), log
the dry-run info record, `break`.  Live: `DeleteClones`,
`DeleteComposes`, `VacuumAnalyze` — any failure logs an error record and
returns that error — then `break` if the compose deletion affected zero
rows, else log the progress record and iterate. -/
def deleteLoop (env : Env) (dryRun : Bool) (cutoff : Int) (db : DB)
    (i : Nat) (fuel : Nat) : LoopOut :=
  match fuel with
  | 0 => ⟨[], [], db, [], [], LoopExit.outOfFuel⟩
  | fuel + 1 =>
    if dryRun then
      let cc := ExpiredClonesCount env.clonesCountErr cutoff db
      let logsC := match cc.2 with
        | some e => [LogEntry.warnExpiredClones e]
        | none => []
      let xc := ExpiredComposesCount env.composesCountErr cutoff db
      let logsX := match xc.2 with
        | some e => [LogEntry.warnExpiredComposes e]
        | none => []
      ⟨[Ev.countClones cutoff, Ev.countComposes cutoff],
       logsC ++ logsX ++ [LogEntry.dryRunInfo xc.1 cc.1], db, [], [],
       LoopExit.broke⟩
    else
      match DeleteClones (env.deleteClonesFail i) cutoff db with
      | (r, db1, some e) =>
        ⟨[Ev.deleteClones cutoff], [LogEntry.errDeletingClones r e], db1,
         [], [], LoopExit.returned e⟩
      | (rc, db1, none) =>
        match DeleteComposes (env.deleteComposesFail i) cutoff db1 with
        | (r, db2, some e) =>
          ⟨[Ev.deleteClones cutoff, Ev.deleteComposes cutoff],
           [LogEntry.errDeletingComposes r e], db2, [rc], [],
           LoopExit.returned e⟩
        | (rows, db2, none) =>
          match VacuumAnalyze (env.vacuumFail i) with
          | some e =>
            ⟨[Ev.deleteClones cutoff, Ev.deleteComposes cutoff, Ev.vacuumAnalyze],
             [LogEntry.errVacuumAnalyze e], db2, [rc], [rows],
             LoopExit.returned e⟩
          | none =>
            if rows = 0 then
              ⟨[Ev.deleteClones cutoff, Ev.deleteComposes cutoff, Ev.vacuumAnalyze],
               [], db2, [rc], [rows], LoopExit.broke⟩
            else
              let rest := deleteLoop env dryRun cutoff db2 (i + 1) fuel
              ⟨[Ev.deleteClones cutoff, Ev.deleteComposes cutoff, Ev.vacuumAnalyze]
                 ++ rest.evs,
               LogEntry.deletedInfo rows :: rest.logs, rest.db,
               rc :: rest.cloneRows, rows :: rest.composeRows, rest.exit⟩

/-- The value `DBCleanup` returns: `nil` (success), an error, or the
fuel artifact of the embedding. -/
inductive RunRet where
  | ok
  | err (e : String)
  | outOfFuel
deriving DecidableEq, Repr

/-- Result of one `DBCleanup` invocation: events issued, log records
emitted, final database, the per-iteration affected-row bookkeeping of
the loop, and the returned value. -/
structure RunOut where
  evs : List Ev
  logs : List LogEntry
  db : DB
  cloneRows : List Nat
  composeRows : List Nat
  ret : RunRet
deriving DecidableEq, Repr

/-- Go `DBCleanup` (db.go:151-213): connect (returning the error on
failure), best-effort `LogVacuumStats`, compute the retention cutoff
`time.Now().AddDate(0, ClonesRetentionMonths*-1, 0)` once, run the
loop (returning its error if it returned one), best-effort
`LogVacuumStats` again, return `nil`.  `now` is the value `time.Now()`
yielded at db.go:165; `fuel` bounds the loop iterations of the model. -/
def DBCleanup (env : Env) (db0 : DB) (dryRun : Bool)
    (clonesRetentionMonths : Int) (now : Int) (fuel : Nat) : RunOut :=
  match env.connectErr with
  | some e => ⟨[Ev.connect], [], db0, [], [], RunRet.err e⟩
  | none =>
    let s1 := LogVacuumStats env.statsBefore
    let logs1 := s1.2.1 ++ (match s1.2.2 with
      | some e => [LogEntry.errVacuumStats e]
      | none => [])
    let emailRetentionDate := addDateMonths now (clonesRetentionMonths * (-1))
    let lo := deleteLoop env dryRun emailRetentionDate db0 0 fuel
    match lo.exit with
    | LoopExit.returned e =>
      ⟨Ev.connect :: Ev.logVacuumStats :: lo.evs, logs1 ++ lo.logs, lo.db,
       lo.cloneRows, lo.composeRows, RunRet.err e⟩
    | LoopExit.outOfFuel =>
      ⟨Ev.connect :: Ev.logVacuumStats :: lo.evs, logs1 ++ lo.logs, lo.db,
       lo.cloneRows, lo.composeRows, RunRet.outOfFuel⟩
    | LoopExit.broke =>
      let s2 := LogVacuumStats env.statsAfter
      let logs2 := s2.2.1 ++ (match s2.2.2 with
        | some e => [LogEntry.errVacuumStats e]
        | none => [])
      ⟨Ev.connect :: Ev.logVacuumStats :: (lo.evs ++ [Ev.logVacuumStats]),
       logs1 ++ lo.logs ++ logs2, lo.db, lo.cloneRows, lo.composeRows,
       RunRet.ok⟩

/-- No deletion or reclaim call of the run fails. -/
def noLoopFailures (env : Env) : Prop :=
  (∀ i, env.deleteClonesFail i = none) ∧
    (∀ i, env.deleteComposesFail i = none) ∧
    (∀ i, env.vacuumFail i = none)

/-- The event trace `evs` ends at a failing mutating call (nothing at
all was issued after it), the error `e` is that call's wrapped error,
and the log records `logs` end with the record of that failure, carrying
the affected-row count `r` the failing `Exec` reported. -/
def errorShape (env : Env) (cutoff : Int) (evs : List Ev)
    (logs : List LogEntry) (e : String) : Prop :=
  ∃ pre lpre j,
    (∃ r e0, env.deleteClonesFail j = some (r, e0) ∧
       e = errMsgDeleteClones e0 ∧
       evs = pre ++ [Ev.deleteClones cutoff] ∧
       logs = lpre ++ [LogEntry.errDeletingClones r e]) ∨
    (∃ r e0, env.deleteComposesFail j = some (r, e0) ∧
       e = errMsgDeleteComposes e0 ∧
       evs = pre ++ [Ev.deleteComposes cutoff] ∧
       logs = lpre ++ [LogEntry.errDeletingComposes r e]) ∨
    (∃ e0, env.vacuumFail j = some e0 ∧
       e = errMsgVacuum e0 ∧
       evs = pre ++ [Ev.vacuumAnalyze] ∧
       logs = lpre ++ [LogEntry.errVacuumAnalyze e])

/-- A statistics environment with no rows and no failures. -/
def seOk : StatsEnv := ⟨none, [], none, none⟩

/-- An environment in which every external call succeeds. -/
def envOk : Env :=
  ⟨none, seOk, none, none, fun _ => none, fun _ => none, fun _ => none, seOk⟩

/-- An environment whose clone deletions fail, the command tag reporting
3 affected rows. -/
def envCloneFail : Env :=
  ⟨none, seOk, none, none, fun _ => some (3, "connection reset"),
   fun _ => none, fun _ => none, seOk⟩

/-- An environment in which both statistics reports and both dry-run
count queries fail, while connect, deletions and reclaim succeed. -/
def envObsFail : Env :=
  ⟨none, ⟨some "stats down", [], none, none⟩, some "count down",
   some "count down too", fun _ => none, fun _ => none, fun _ => none,
   ⟨some "stats down again", [], none, none⟩⟩

/-- Scenario dataset: one expired compose (job 1, created at time 98)
with a dependent clone, and one fresh compose (job 2, created at 100);
with cutoff 99 the first compose and its clone are expired. -/
def dbA : DB := ⟨[⟨1⟩], [⟨1, 98⟩, ⟨2, 100⟩]⟩

/-! ### Helper lemmas -/

theorem filter_not_filter {α : Type} (p : α → Bool) (l : List α) :
    (l.filter (fun a => !(p a))).filter p = [] := by
  induction l with
  | nil => rfl
  | cons a t ih => cases h : p a <;> simp [List.filter_cons, h, ih]

theorem filter_self_filter {α : Type} (p : α → Bool) (l : List α) :
    (l.filter p).filter p = l.filter p := by
  induction l with
  | nil => rfl
  | cons a t ih => cases h : p a <;> simp [List.filter_cons, h, ih]

theorem expiredJobIds_runDeleteComposes (cutoff : Int) (db : DB) :
    expiredJobIds cutoff (runDeleteComposes cutoff db).2 = [] := by
  unfold expiredJobIds runDeleteComposes
  simp [filter_not_filter]

theorem cloneExpired_runDeleteComposes (cutoff : Int) (db : DB) (cl : Clone) :
    cloneExpired cutoff (runDeleteComposes cutoff db).2 cl = false := by
  simp [cloneExpired, expiredJobIds_runDeleteComposes]

theorem runDeleteClones_stable (cutoff : Int) (db : DB) :
    runDeleteClones cutoff (runDeleteComposes cutoff db).2 =
      (0, (runDeleteComposes cutoff db).2) := by
  unfold runDeleteClones
  simp [cloneExpired_runDeleteComposes]

theorem runDeleteComposes_stable (cutoff : Int) (db : DB) :
    runDeleteComposes cutoff (runDeleteComposes cutoff db).2 =
      (0, (runDeleteComposes cutoff db).2) := by
  unfold runDeleteComposes
  simp [filter_not_filter, filter_self_filter]


/-- Closed form of the live loop when no deletion or reclaim call fails:
the first iteration deletes everything expired, so the loop runs one
iteration (if nothing was expired) or two (a deleting iteration, then
the zero-row iteration), and breaks. -/
theorem deleteLoop_noFail (env : Env) (h : noLoopFailures env) (cutoff : Int)
    (db : DB) (i f : Nat) :
    deleteLoop env false cutoff db i (f + 2) =
      (if (runDeleteComposes cutoff (runDeleteClones cutoff db).2).1 = 0 then
         ⟨[Ev.deleteClones cutoff, Ev.deleteComposes cutoff, Ev.vacuumAnalyze],
          [], (runDeleteComposes cutoff (runDeleteClones cutoff db).2).2,
          [(runDeleteClones cutoff db).1], [0], LoopExit.broke⟩
       else
         ⟨[Ev.deleteClones cutoff, Ev.deleteComposes cutoff, Ev.vacuumAnalyze,
           Ev.deleteClones cutoff, Ev.deleteComposes cutoff, Ev.vacuumAnalyze],
          [LogEntry.deletedInfo
            (runDeleteComposes cutoff (runDeleteClones cutoff db).2).1],
          (runDeleteComposes cutoff (runDeleteClones cutoff db).2).2,
          [(runDeleteClones cutoff db).1, 0],
          [(runDeleteComposes cutoff (runDeleteClones cutoff db).2).1, 0],
          LoopExit.broke⟩) := by
  obtain ⟨h1, h2, h3⟩ := h
  simp only [deleteLoop, DeleteClones, DeleteComposes, VacuumAnalyze,
    h1, h2, h3, Bool.false_eq_true, if_false]
  split
  · next hq => rw [hq]
  · simp only [deleteLoop, DeleteClones, DeleteComposes, VacuumAnalyze,
      h1, h2, h3, runDeleteClones_stable, runDeleteComposes_stable]
    rfl

theorem deleteLoop_dry_db (env : Env) (cutoff : Int) (db : DB) (i f : Nat) :
    (deleteLoop env true cutoff db i (f + 1)).db = db := rfl

theorem deleteLoop_dry_evs (env : Env) (cutoff : Int) (db : DB) (i f : Nat) :
    (deleteLoop env true cutoff db i (f + 1)).evs =
      [Ev.countClones cutoff, Ev.countComposes cutoff] := rfl

theorem deleteLoop_dry_exit (env : Env) (cutoff : Int) (db : DB) (i f : Nat) :
    (deleteLoop env true cutoff db i (f + 1)).exit = LoopExit.broke := rfl

/-- Every database call the loop issues is one of the two deletions at
the loop's cutoff, `VACUUM ANALYZE`, or one of the two counts at the
loop's cutoff. -/
theorem deleteLoop_evs_shape (env : Env) (dryRun : Bool) (cutoff : Int) :
    ∀ (fuel i : Nat) (db : DB) (ev : Ev),
      ev ∈ (deleteLoop env dryRun cutoff db i fuel).evs →
      ev = Ev.deleteClones cutoff ∨ ev = Ev.deleteComposes cutoff ∨
        ev = Ev.vacuumAnalyze ∨ ev = Ev.countClones cutoff ∨
        ev = Ev.countComposes cutoff := by
  intro fuel
  induction fuel with
  | zero =>
    intro i db ev h
    simp [deleteLoop] at h
  | succ f ih =>
    intro i db ev h
    rw [deleteLoop] at h
    cases dryRun with
    | true =>
      simp only [if_true] at h
      simp at h
      rcases h with h | h <;> simp [h]
    | false =>
      simp only [Bool.false_eq_true, if_false] at h
      cases hc : env.deleteClonesFail i with
      | some pr =>
        obtain ⟨r, e⟩ := pr
        simp only [hc, DeleteClones] at h
        simp at h
        simp [h]
      | none =>
        simp only [hc, DeleteClones] at h
        cases hx : env.deleteComposesFail i with
        | some pr =>
          obtain ⟨r, e⟩ := pr
          simp only [hx, DeleteComposes] at h
          simp at h
          rcases h with h | h <;> simp [h]
        | none =>
          simp only [hx, DeleteComposes] at h
          cases hv : env.vacuumFail i with
          | some e =>
            simp only [hv, VacuumAnalyze] at h
            simp at h
            rcases h with h | h | h <;> simp [h]
          | none =>
            simp only [hv, VacuumAnalyze] at h
            split at h
            · simp at h
              rcases h with h | h | h <;> simp [h]
            · simp at h
              rcases h with h | h | h | h
              · simp [h]
              · simp [h]
              · simp [h]
              · exact ih (i + 1) _ ev h

/-- When the live loop returns an error, its trace and logs have the
`errorShape`: the failing call is the last event issued and the error
record with its partial row count is the last log record. -/
theorem deleteLoop_error_shape (env : Env) (cutoff : Int) :
    ∀ (fuel i : Nat) (db : DB) (e : String),
      (deleteLoop env false cutoff db i fuel).exit = LoopExit.returned e →
      errorShape env cutoff (deleteLoop env false cutoff db i fuel).evs
        (deleteLoop env false cutoff db i fuel).logs e := by
  intro fuel
  induction fuel with
  | zero =>
    intro i db e h
    simp [deleteLoop] at h
  | succ f ih =>
    intro i db e h
    rw [deleteLoop] at h ⊢
    simp only [Bool.false_eq_true, if_false] at h ⊢
    cases hc : env.deleteClonesFail i with
    | some pr =>
      obtain ⟨r, e0⟩ := pr
      simp only [hc, DeleteClones] at h ⊢
      simp at h
      subst h
      exact ⟨[], [], i, Or.inl ⟨r, e0, hc, rfl, rfl, rfl⟩⟩
    | none =>
      simp only [hc, DeleteClones] at h ⊢
      cases hx : env.deleteComposesFail i with
      | some pr =>
        obtain ⟨r, e0⟩ := pr
        simp only [hx, DeleteComposes] at h ⊢
        simp at h
        subst h
        exact ⟨[Ev.deleteClones cutoff], [], i,
          Or.inr (Or.inl ⟨r, e0, hx, rfl, rfl, rfl⟩)⟩
      | none =>
        simp only [hx, DeleteComposes] at h ⊢
        cases hv : env.vacuumFail i with
        | some e0 =>
          simp only [hv, VacuumAnalyze] at h ⊢
          simp at h
          subst h
          exact ⟨[Ev.deleteClones cutoff, Ev.deleteComposes cutoff], [], i,
            Or.inr (Or.inr ⟨e0, hv, rfl, rfl, rfl⟩)⟩
        | none =>
          simp only [hv, VacuumAnalyze] at h ⊢
          split at h
          · simp at h
          · next hrows =>
            rw [if_neg hrows]
            simp only at h ⊢
            have hih := ih (i + 1) _ e h
            obtain ⟨pre, lpre, j, hcase⟩ := hih
            refine ⟨[Ev.deleteClones cutoff, Ev.deleteComposes cutoff,
              Ev.vacuumAnalyze] ++ pre,
              LogEntry.deletedInfo
                (runDeleteComposes cutoff (runDeleteClones cutoff db).2).1 :: lpre,
              j, ?_⟩
            rcases hcase with ⟨r, e0, h1, h2, h3, h4⟩ | ⟨r, e0, h1, h2, h3, h4⟩ |
              ⟨e0, h1, h2, h3, h4⟩
            · exact Or.inl ⟨r, e0, h1, h2, by simp [h3], by simp [h4]⟩
            · exact Or.inr (Or.inl ⟨r, e0, h1, h2, by simp [h3], by simp [h4]⟩)
            · exact Or.inr (Or.inr ⟨e0, h1, h2, by simp [h3], by simp [h4]⟩)

/-! ### Claim theorems -/

/-- Claim C10: for every invocation of `LogVacuumStats`, the integer it
returns as its first result is exactly 0 — on success, on query failure,
and on row-scan failure alike; the counter is never incremented by any
logged row. -/
theorem LogVacuumStats_returns_zero (se : StatsEnv) :
    (LogVacuumStats se).1 = 0 := by
  unfold LogVacuumStats
  cases hq : se.queryErr with
  | some e => rfl
  | none =>
    cases hp : (logStatsRows se.rows se.scanErrAt 0).2 with
    | some e => simp [hp]
    | none => cases hr : se.rowsErr <;> simp [hp, hr]

/-- The event trace of a `DBCleanup` invocation is: just the failed
connect, or connect and the first stats call followed by the loop's
events (error or fuel exit), or additionally the closing stats call
(normal exit). -/
theorem DBCleanup_evs_cases (env : Env) (db0 : DB) (dryRun : Bool)
    (m now : Int) (fuel : Nat) :
    (DBCleanup env db0 dryRun m now fuel).evs = [Ev.connect] ∨
      (DBCleanup env db0 dryRun m now fuel).evs =
        Ev.connect :: Ev.logVacuumStats ::
          (deleteLoop env dryRun (addDateMonths now (m * (-1))) db0 0 fuel).evs ∨
      (DBCleanup env db0 dryRun m now fuel).evs =
        Ev.connect :: Ev.logVacuumStats ::
          ((deleteLoop env dryRun (addDateMonths now (m * (-1))) db0 0 fuel).evs
            ++ [Ev.logVacuumStats]) := by
  cases hc : env.connectErr with
  | some e =>
    left
    simp [DBCleanup, hc]
  | none =>
    cases hexit :
        (deleteLoop env dryRun (addDateMonths now (m * (-1))) db0 0 fuel).exit with
    | broke =>
      right; right
      simp only [DBCleanup, hc]
      rw [hexit]
    | returned e =>
      right; left
      simp only [DBCleanup, hc]
      rw [hexit]
    | outOfFuel =>
      right; left
      simp only [DBCleanup, hc]
      rw [hexit]

theorem DBCleanup_close_not_mem (env : Env) (db0 : DB) (dryRun : Bool)
    (m now : Int) (fuel : Nat) :
    Ev.close ∉ (DBCleanup env db0 dryRun m now fuel).evs := by
  intro hmem
  rcases DBCleanup_evs_cases env db0 dryRun m now fuel with hcase | hcase | hcase <;>
    rw [hcase] at hmem
  · simp at hmem
  · simp at hmem
    exact absurd
      (deleteLoop_evs_shape env dryRun (addDateMonths now (-m)) fuel 0 db0
        Ev.close hmem)
      (by simp)
  · simp at hmem
    exact absurd
      (deleteLoop_evs_shape env dryRun (addDateMonths now (-m)) fuel 0 db0
        Ev.close hmem)
      (by simp)

/-- Claim C1 (code divergence): `DBCleanup` never closes the database
connection it acquires — the `close` call appears on no exit path of any
invocation, successful or failing, contradicting the claimed guaranteed
release. -/
theorem DBCleanup_never_calls_close (env : Env) (db0 : DB) (dryRun : Bool)
    (m now : Int) (fuel : Nat) :
    (DBCleanup env db0 dryRun m now fuel).evs.contains Ev.close = false := by
  simpa using DBCleanup_close_not_mem env db0 dryRun m now fuel

/-- Claim C7: a dry-run invocation of `DBCleanup` leaves the clones and
composes tables exactly as they were, and issues no delete or
`VACUUM ANALYZE` statement. -/
theorem DBCleanup_dryRun_no_mutation (env : Env) (db0 : DB) (m now : Int)
    (fuel : Nat) :
    (DBCleanup env db0 true m now fuel).db = db0 ∧
      (DBCleanup env db0 true m now fuel).evs.all
        (fun ev => !(Ev.isMutation ev)) = true := by
  unfold DBCleanup
  cases hc : env.connectErr with
  | some e => simp [Ev.isMutation]
  | none =>
    simp only
    set cutoff := addDateMonths now (m * (-1)) with hcut
    cases fuel with
    | zero =>
      simp [deleteLoop, Ev.isMutation]
    | succ f =>
      rw [deleteLoop_dry_exit env cutoff db0 0 f]
      simp [deleteLoop_dry_db, deleteLoop_dry_evs, Ev.isMutation]

/-- Claim C2: in a live run in which no call fails, the body executed on
every loop iteration is delete-clones, then delete-composes, then
reclaim (the trace is that triple repeated once per iteration), and the
loop breaks exactly at the iteration whose compose deletion affected
zero rows: the final iteration affected zero rows and every earlier one
affected a nonzero number. -/
theorem deleteLoop_body_and_exit (env : Env) (cutoff : Int) (db : DB)
    (i f : Nat) (h : noLoopFailures env) :
    (deleteLoop env false cutoff db i (f + 2)).evs =
        (List.replicate (deleteLoop env false cutoff db i (f + 2)).composeRows.length
          [Ev.deleteClones cutoff, Ev.deleteComposes cutoff, Ev.vacuumAnalyze]).flatten ∧
      (deleteLoop env false cutoff db i (f + 2)).exit = LoopExit.broke ∧
      (deleteLoop env false cutoff db i (f + 2)).composeRows ≠ [] ∧
      (deleteLoop env false cutoff db i (f + 2)).composeRows.getLast? = some 0 ∧
      ∀ k, k + 1 < (deleteLoop env false cutoff db i (f + 2)).composeRows.length →
        (deleteLoop env false cutoff db i (f + 2)).composeRows.getD k 0 ≠ 0 := by
  rw [deleteLoop_noFail env h cutoff db i f]
  split
  · refine ⟨by simp [List.replicate], rfl, by simp, rfl, ?_⟩
    intro k hk
    simp at hk
  · next hq =>
    refine ⟨by simp [List.replicate], rfl, by simp, rfl, ?_⟩
    intro k hk
    simp at hk
    have hk0 : k = 0 := by omega
    subst hk0
    simpa using hq

/-- Claim C8: the live delete loop terminates on a static dataset — with
fuel for two iterations its result is already final (more fuel changes
nothing), it breaks rather than exhausting fuel, and it stops at an
iteration whose compose deletion affected zero rows, after at most two
iterations. -/
theorem deleteLoop_terminates (env : Env) (cutoff : Int) (db : DB)
    (i f : Nat) (h : noLoopFailures env) :
    (∀ f', deleteLoop env false cutoff db i (f + 2) =
        deleteLoop env false cutoff db i (f' + 2)) ∧
      (deleteLoop env false cutoff db i (f + 2)).exit = LoopExit.broke ∧
      (deleteLoop env false cutoff db i (f + 2)).composeRows.getLast? = some 0 ∧
      (deleteLoop env false cutoff db i (f + 2)).composeRows.length ≤ 2 := by
  refine ⟨fun f' => by
    rw [deleteLoop_noFail env h cutoff db i f, deleteLoop_noFail env h cutoff db i f'],
    ?_, ?_, ?_⟩ <;> rw [deleteLoop_noFail env h cutoff db i f] <;> split
  · rfl
  · rfl
  · rfl
  · rfl
  · simp
  · simp

theorem mem_runDeleteComposes_not_expired (cutoff : Int) (db : DB)
    (c : Compose) (hc : c ∈ ((runDeleteComposes cutoff db).2).composes) :
    ¬(c.created_at < cutoff) := by
  unfold runDeleteComposes at hc
  simp at hc
  exact not_lt.mpr hc.2

theorem mem_runDeleteClones_not_ref (cutoff : Int) (db : DB) (cl : Clone)
    (hcl : cl ∈ ((runDeleteClones cutoff db).2).clones) :
    ∀ c ∈ db.composes, c.created_at < cutoff → cl.compose_id ≠ c.job_id := by
  unfold runDeleteClones at hcl
  simp at hcl
  intro c hc hlt heq
  have hexp : cloneExpired cutoff db cl = true := by
    unfold cloneExpired
    have : cl.compose_id ∈ expiredJobIds cutoff db := by
      unfold expiredJobIds
      simp only [List.mem_map]
      exact ⟨c, by simp [hc, hlt], heq.symm⟩
    simpa using this
  rw [hexp] at hcl
  exact absurd hcl.2 (by simp)

/-- A live run with no failing calls returns `nil` and leaves the
database in the state one clone deletion followed by one compose
deletion produces. -/
theorem DBCleanup_noFail_ret_db (env : Env) (db0 : DB) (m now : Int)
    (f : Nat) (h : noLoopFailures env) (hconn : env.connectErr = none) :
    (DBCleanup env db0 false m now (f + 2)).ret = RunRet.ok ∧
      (DBCleanup env db0 false m now (f + 2)).db =
        (runDeleteComposes (addDateMonths now (m * (-1)))
          (runDeleteClones (addDateMonths now (m * (-1))) db0).2).2 := by
  simp only [DBCleanup, hconn]
  rw [deleteLoop_noFail env h (addDateMonths now (m * (-1))) db0 0 f]
  by_cases hq : (runDeleteComposes (addDateMonths now (m * (-1)))
      (runDeleteClones (addDateMonths now (m * (-1))) db0).2).1 = 0
  · rw [if_pos hq]
    exact ⟨rfl, rfl⟩
  · rw [if_neg hq]
    exact ⟨rfl, rfl⟩

/-- Claim C3: after a successful live run with retention cutoff
C = now − N months, the database contains no compose created strictly
before C, and no clone whose compose_id references any compose of the
initial dataset created strictly before C. -/
theorem DBCleanup_referential_cleanliness (env : Env) (db0 : DB)
    (m now : Int) (f : Nat) (h : noLoopFailures env)
    (hconn : env.connectErr = none) :
    (DBCleanup env db0 false m now (f + 2)).ret = RunRet.ok ∧
      (∀ c ∈ (DBCleanup env db0 false m now (f + 2)).db.composes,
        ¬(c.created_at < addDateMonths now (m * (-1)))) ∧
      (∀ cl ∈ (DBCleanup env db0 false m now (f + 2)).db.clones,
        ∀ c ∈ db0.composes,
          c.created_at < addDateMonths now (m * (-1)) →
            cl.compose_id ≠ c.job_id) := by
  obtain ⟨hret, hdb⟩ := DBCleanup_noFail_ret_db env db0 m now f h hconn
  refine ⟨hret, ?_, ?_⟩
  · intro c hc
    rw [hdb] at hc
    exact mem_runDeleteComposes_not_expired _ _ c hc
  · intro cl hcl
    rw [hdb] at hcl
    exact mem_runDeleteClones_not_ref _ db0 cl hcl

/-- Claim C5: observational failures never fail the run — whenever the
connection succeeds and no delete or reclaim call fails, `DBCleanup`
returns `nil`, whatever the outcomes of the two statistics reports and
of the dry-run count queries. -/
theorem DBCleanup_observational_failures_ok (env : Env) (db0 : DB)
    (dryRun : Bool) (m now : Int) (f : Nat) (h : noLoopFailures env)
    (hconn : env.connectErr = none) :
    (DBCleanup env db0 dryRun m now (f + 2)).ret = RunRet.ok := by
  simp only [DBCleanup, hconn]
  cases dryRun with
  | false =>
    rw [deleteLoop_noFail env h (addDateMonths now (m * (-1))) db0 0 f]
    by_cases hq : (runDeleteComposes (addDateMonths now (m * (-1)))
        (runDeleteClones (addDateMonths now (m * (-1))) db0).2).1 = 0
    · rw [if_pos hq]
    · rw [if_neg hq]
  | true =>
    rw [show f + 2 = f + 1 + 1 from rfl,
      deleteLoop_dry_exit env (addDateMonths now (m * (-1))) db0 0 (f + 1)]

/-- Every cutoff-carrying event of the loop carries the loop's cutoff. -/
theorem deleteLoop_ev_cutoff (env : Env) (dryRun : Bool) (cutoffVal : Int)
    (fuel i : Nat) (db : DB) (ev : Ev)
    (hmem : ev ∈ (deleteLoop env dryRun cutoffVal db i fuel).evs) :
    ∀ c, Ev.cutoff ev = some c → c = cutoffVal := by
  intro c hc
  rcases deleteLoop_evs_shape env dryRun cutoffVal fuel i db ev hmem with
    hev | hev | hev | hev | hev <;> subst hev <;> simp [Ev.cutoff] at hc <;>
    exact hc.symm

/-- Claim C6: the retention cutoff equals now − N months (on the model
timeline `AddDate(0, N*-1, 0)` is exactly subtraction of N), and every
count and delete call of every iteration of the run carries exactly the
one cutoff value computed from the `now` read before the loop. -/
theorem DBCleanup_cutoff_constant (env : Env) (db0 : DB) (dryRun : Bool)
    (m now : Int) (fuel : Nat) :
    addDateMonths now (m * (-1)) = now - m ∧
      ∀ ev ∈ (DBCleanup env db0 dryRun m now fuel).evs, ∀ c,
        Ev.cutoff ev = some c → c = addDateMonths now (m * (-1)) := by
  refine ⟨by unfold addDateMonths; ring, ?_⟩
  have hm : (m * (-1) : Int) = -m := by ring
  rw [hm]
  intro ev hmem c hc
  rcases DBCleanup_evs_cases env db0 dryRun m now fuel with hcase | hcase | hcase <;>
    rw [hcase] at hmem <;> simp at hmem
  · subst hmem
    simp [Ev.cutoff] at hc
  · rcases hmem with hmem | hmem | hmem
    · subst hmem
      simp [Ev.cutoff] at hc
    · subst hmem
      simp [Ev.cutoff] at hc
    · exact deleteLoop_ev_cutoff env dryRun (addDateMonths now (-m)) fuel 0 db0
        ev hmem c hc
  · rcases hmem with hmem | hmem | hmem | hmem
    · subst hmem
      simp [Ev.cutoff] at hc
    · subst hmem
      simp [Ev.cutoff] at hc
    · exact deleteLoop_ev_cutoff env dryRun (addDateMonths now (-m)) fuel 0 db0
        ev hmem c hc
    · subst hmem
      simp [Ev.cutoff] at hc

/-- Claim C9: idempotence — a second live pass with the same cutoff
over the database a successful live pass produced runs exactly one
iteration, whose clone deletion and compose deletion both affect zero
rows. -/
theorem DBCleanup_idempotent (env env2 : Env) (db0 : DB) (m now : Int)
    (f f2 : Nat) (h : noLoopFailures env) (h2 : noLoopFailures env2)
    (hconn : env.connectErr = none) (hconn2 : env2.connectErr = none) :
    (DBCleanup env db0 false m now (f + 2)).ret = RunRet.ok ∧
      (DBCleanup env2 (DBCleanup env db0 false m now (f + 2)).db false m now
        (f2 + 2)).cloneRows = [0] ∧
      (DBCleanup env2 (DBCleanup env db0 false m now (f + 2)).db false m now
        (f2 + 2)).composeRows = [0] := by
  obtain ⟨hret, hdb⟩ := DBCleanup_noFail_ret_db env db0 m now f h hconn
  refine ⟨hret, ?_, ?_⟩ <;>
    (rw [hdb]
     simp only [DBCleanup, hconn2]
     rw [deleteLoop_noFail env2 h2 (addDateMonths now (m * (-1))) _ 0 f2]
     simp [runDeleteClones_stable, runDeleteComposes_stable])

/-- `errorShape` is stable under prefixing further events and log
records before the failing tail. -/
theorem errorShape_extend (env : Env) (cutoff : Int) (evs : List Ev)
    (logs : List LogEntry) (e : String) (pre2 : List Ev)
    (lpre2 : List LogEntry) (h : errorShape env cutoff evs logs e) :
    errorShape env cutoff (pre2 ++ evs) (lpre2 ++ logs) e := by
  obtain ⟨pre, lpre, j, hcase⟩ := h
  refine ⟨pre2 ++ pre, lpre2 ++ lpre, j, ?_⟩
  rcases hcase with ⟨r, e1, h1, h2, h3, h4⟩ | ⟨r, e1, h1, h2, h3, h4⟩ |
    ⟨e1, h1, h2, h3, h4⟩
  · exact Or.inl ⟨r, e1, h1, h2, by simp [h3], by simp [h4]⟩
  · exact Or.inr (Or.inl ⟨r, e1, h1, h2, by simp [h3], by simp [h4]⟩)
  · exact Or.inr (Or.inr ⟨e1, h1, h2, by simp [h3], by simp [h4]⟩)

/-- Claim C4: in a live run, a failing delete or reclaim call aborts
the run at once — the failing call is the last event of the whole run's
trace, so no further deletion or reclaim call is issued — `DBCleanup`
returns exactly that call's error, and the affected-row count the
failing call reported is surfaced in the final log record alongside the
error. -/
theorem DBCleanup_error_propagation (env : Env) (db0 : DB) (m now : Int)
    (fuel : Nat) (e : String) (hconn : env.connectErr = none)
    (hret : (DBCleanup env db0 false m now fuel).ret = RunRet.err e) :
    errorShape env (addDateMonths now (m * (-1)))
      (DBCleanup env db0 false m now fuel).evs
      (DBCleanup env db0 false m now fuel).logs e := by
  simp only [DBCleanup, hconn] at hret ⊢
  cases hexit :
      (deleteLoop env false (addDateMonths now (m * (-1))) db0 0 fuel).exit with
  | broke =>
    rw [hexit] at hret
    simp at hret
  | outOfFuel =>
    rw [hexit] at hret
    simp at hret
  | returned e0 =>
    rw [hexit] at hret
    have he : RunRet.err e0 = RunRet.err e := hret
    injection he with he2
    subst he2
    exact errorShape_extend env _ _ _ e0 [Ev.connect, Ev.logVacuumStats] _
      (deleteLoop_error_shape env (addDateMonths now (m * (-1))) fuel 0 db0 e0
        hexit)

/-! ### Witnesses -/

theorem deleteLoop_body_and_exit_witness :
    (deleteLoop envOk false 99 dbA 0 2).evs =
        (List.replicate (deleteLoop envOk false 99 dbA 0 2).composeRows.length
          [Ev.deleteClones 99, Ev.deleteComposes 99, Ev.vacuumAnalyze]).flatten ∧
      (deleteLoop envOk false 99 dbA 0 2).exit = LoopExit.broke ∧
      (deleteLoop envOk false 99 dbA 0 2).composeRows.getLast? = some 0 := by
  obtain ⟨h1, h2, h3, h4, h5⟩ :=
    deleteLoop_body_and_exit envOk 99 dbA 0 0
      ⟨fun _ => rfl, fun _ => rfl, fun _ => rfl⟩
  exact ⟨h1, h2, h4⟩

theorem DBCleanup_referential_cleanliness_witness :
    (DBCleanup envOk dbA false 1 100 2).ret = RunRet.ok ∧
      (DBCleanup envOk dbA false 1 100 2).db = DB.mk [] [Compose.mk 2 100] := by
  refine ⟨?_, by decide⟩
  exact (DBCleanup_referential_cleanliness envOk dbA 1 100 0
    ⟨fun _ => rfl, fun _ => rfl, fun _ => rfl⟩ rfl).1

theorem DBCleanup_error_propagation_witness :
    errorShape envCloneFail (addDateMonths 100 (1 * (-1)))
      (DBCleanup envCloneFail dbA false 1 100 2).evs
      (DBCleanup envCloneFail dbA false 1 100 2).logs
      (errMsgDeleteClones "connection reset") :=
  DBCleanup_error_propagation envCloneFail dbA 1 100 2
    (errMsgDeleteClones "connection reset") rfl rfl

theorem DBCleanup_observational_failures_ok_witness :
    (DBCleanup envObsFail dbA true 1 100 2).ret = RunRet.ok :=
  DBCleanup_observational_failures_ok envObsFail dbA true 1 100 0
    ⟨fun _ => rfl, fun _ => rfl, fun _ => rfl⟩ rfl

theorem DBCleanup_cutoff_constant_witness :
    addDateMonths 100 (1 * (-1)) = 100 - 1 ∧
      Ev.deleteClones 99 ∈ (DBCleanup envOk dbA false 1 100 2).evs ∧
      (99 : Int) = addDateMonths 100 (1 * (-1)) := by
  have h := DBCleanup_cutoff_constant envOk dbA false 1 100 2
  refine ⟨h.1, by decide, ?_⟩
  exact h.2 (Ev.deleteClones 99) (by decide) 99 rfl

theorem deleteLoop_terminates_witness :
    deleteLoop envOk false 99 dbA 0 2 = deleteLoop envOk false 99 dbA 0 7 ∧
      (deleteLoop envOk false 99 dbA 0 2).exit = LoopExit.broke ∧
      (deleteLoop envOk false 99 dbA 0 2).composeRows.getLast? = some 0 ∧
      (deleteLoop envOk false 99 dbA 0 2).composeRows.length ≤ 2 := by
  obtain ⟨h1, h2, h3, h4⟩ :=
    deleteLoop_terminates envOk 99 dbA 0 0
      ⟨fun _ => rfl, fun _ => rfl, fun _ => rfl⟩
  exact ⟨h1 5, h2, h3, h4⟩

theorem DBCleanup_idempotent_witness :
    (DBCleanup envOk dbA false 1 100 2).ret = RunRet.ok ∧
      (DBCleanup envOk (DBCleanup envOk dbA false 1 100 2).db false 1 100
        2).cloneRows = [0] ∧
      (DBCleanup envOk (DBCleanup envOk dbA false 1 100 2).db false 1 100
        2).composeRows = [0] :=
  DBCleanup_idempotent envOk envOk dbA 1 100 0 0
    ⟨fun _ => rfl, fun _ => rfl, fun _ => rfl⟩
    ⟨fun _ => rfl, fun _ => rfl, fun _ => rfl⟩ rfl rfl

end ImageBuilderMaintenance
